import Mathlib

/-!
Verification of the forcerelay header-relay core against its source:

* `crates/relayer-types/src/core/ics02_client/client_type.rs` — the
  `ClientType` codec (string tag, numeric conversion, lenient inference
  from a client identifier).
* `crates/relayer/src/supervisor/forcerelay.rs` — `handle_event_batch`,
  the header-relay gap-chasing state machine.

The Rust code is shallowly embedded: enums become inductives, the event
loop becomes a fuel-indexed recursive function over an explicit state
record, and the external `ChainHandle` capabilities (config lookup,
client-state construction, paginated query, message submission) become
oracle functions supplied in an environment record.  Side effects that
the claims talk about (submissions, queries, backoff sleeps) are
recorded in an explicit action trace.
-/

namespace Forcerelay

/-! ## ClientType (client_type.rs) -/

/-- The `ClientType` enum from client_type.rs, including the test-only `Mock`
sentinel (`#[cfg(any(test, feature = "mocks"))]`). -/
inductive ClientType
  | Tendermint
  | Eth
  | Ckb
  | Axon
  | Ckb4Ibc
  | Mock
  deriving DecidableEq, Repr

/-- The Rust enum discriminants: `Tendermint = 1, Eth = 2, Ckb = 3,
Axon = 4, Ckb4Ibc = 5, Mock = 255`. -/
def ClientType.discriminant : ClientType → Nat
  | .Tendermint => 1
  | .Eth => 2
  | .Ckb => 3
  | .Axon => 4
  | .Ckb4Ibc => 5
  | .Mock => 255

/-- Rust `ClientType::as_str`: the canonical string tag of each variant. -/
def ClientType.as_str : ClientType → String
  | .Tendermint => "07-tendermint"
  | .Eth => "07-ethereum"
  | .Ckb => "07-ckb4eth"
  | .Axon => "07-axon"
  | .Ckb4Ibc => "07-ckb4ibc"
  | .Mock => "9999-mock"

/-- Rust `TryFrom<u64> for ClientType`: numeric conversion.  Accepts `1..=5`
and `9999` (for `Mock`); anything else yields
`Error::unknown_client_type(value.to_string())`, embedded as `.error`
carrying the stringified value. -/
def ClientType.try_from (value : Nat) : Except String ClientType :=
  match value with
  | 1 => .ok .Tendermint
  | 2 => .ok .Eth
  | 3 => .ok .Ckb
  | 4 => .ok .Axon
  | 5 => .ok .Ckb4Ibc
  | 9999 => .ok .Mock
  | _ => .error (toString value)

/-- Rust `FromStr for ClientType`: exact match against the closed tag set;
any other string yields `Error::unknown_client_type(s)`. -/
def ClientType.from_str (s : String) : Except String ClientType :=
  if s = "07-tendermint" then .ok .Tendermint
  else if s = "07-ethereum" then .ok .Eth
  else if s = "07-ckb4eth" then .ok .Ckb
  else if s = "07-axon" then .ok .Axon
  else if s = "07-ckb4ibc" then .ok .Ckb4Ibc
  else if s = "9999-mock" then .ok .Mock
  else .error s

/-- Rust `ClientType::iter()` (strum `EnumIter`): all variants in declaration
order. -/
def ClientType.iterOrder : List ClientType :=
  [.Tendermint, .Eth, .Ckb, .Axon, .Ckb4Ibc, .Mock]

/-- Rust `From<ClientId> for ClientType`: start from `Mock`, walk every
variant in declaration order, and overwrite the running result whenever
the variant's tag is a leading substring of the identifier. -/
def ClientType.fromClientId (client_id : String) : ClientType :=
  ClientType.iterOrder.foldl
    (fun client_type value =>
      if client_id.startsWith value.as_str then value else client_type)
    ClientType.Mock

/-- Spec-side restatement of the inference rule: the result is the last
variant (in declaration order) whose tag leads the identifier, and the
`Mock` sentinel when no variant's tag does. -/
def lastMatchingVariant (client_id : String) : ClientType :=
  ((ClientType.iterOrder.filter
    (fun value => client_id.startsWith value.as_str)).getLast?).getD ClientType.Mock

/-! ## handle_event_batch (forcerelay.rs)

The relayer function is embedded over an abstract message/record type
`CS` (an `IdentifiedAnyClientState` is abstracted to its payload).  The
`ChainHandle` calls become oracle functions in `RelayEnv`; the chase
loop's oracles additionally take the loop-iteration index so that
responses may differ between iterations.  Heights (`u64` in Rust) are
`Nat`; the one subtraction that can underflow (`start_height +
clients_len - 1`) is guarded explicitly and surfaces as a `panicked`
outcome, modelling the Rust `u64` underflow. -/

/-- Rust `const MAX_HEADERS_IN_BATCH: u64 = 32`. -/
def MAX_HEADERS_IN_BATCH : Nat := 32

/-- Rust `const MAX_RETRY_SLEEP_INTERVAL: Duration = Duration::from_secs(12)`. -/
def MAX_RETRY_SLEEP_INTERVAL : Nat := 12

/-- Rust `const MAX_RETRY_NUMBER: u8 = 5`. -/
def MAX_RETRY_NUMBER : Nat := 5

/-- The `ChainConfig` variants the role precondition distinguishes. -/
inductive ChainConfig
  | Eth
  | Ckb
  | OtherCfg
  deriving DecidableEq, Repr

/-- Rust `matches!(cfg, ChainConfig::Eth(_))`. -/
def ChainConfig.isEth : ChainConfig → Bool
  | .Eth => true
  | _ => false

/-- Rust `matches!(cfg, ChainConfig::Ckb(_))`. -/
def ChainConfig.isCkb : ChainConfig → Bool
  | .Ckb => true
  | _ => false

/-- An `IbcEvent` as far as `handle_event_batch` inspects it: either a
`NewBlock` carrying its height's `revision_height`, or anything else. -/
inductive IbcEventKind
  | NewBlock (height : Nat)
  | OtherEvent
  deriving DecidableEq, Repr

/-- The `EventBatch`: the events plus the batch's own height
(`revision_height`). -/
structure EventBatch where
  events : List IbcEventKind
  height : Nat
  deriving DecidableEq, Repr

/-- Outcome of one `send_messages_and_wait_commit` call, classified the
way `handle_event_batch` pattern-matches the error:
`errGap h` is `ErrorDetail::LightClientVerification` with source
`MissingLastBlockId(height)`; `errLcOther` is a light-client
verification error with any other source; `errOther` is any other
error detail. -/
inductive SubmitOutcome
  | ok
  | errGap (h : Nat)
  | errLcOther
  | errOther
  deriving DecidableEq, Repr

/-- Does the outcome have the "missing last block id" gap shape? -/
def SubmitOutcome.isGapErr : SubmitOutcome → Bool
  | .errGap _ => true
  | _ => false

/-- Observable side effects of one run: a message submission to the
destination chain, a paginated query to the source chain, or a backoff
sleep of `secs` seconds. -/
inductive Action (CS : Type)
  | submit (msgs : List CS)
  | query (offset limit : Nat)
  | sleep (secs : Nat)
  deriving DecidableEq, Repr

/-- Is the action a backoff sleep? -/
def Action.isSleep {CS : Type} : Action CS → Bool
  | .sleep _ => true
  | _ => false

/-- Is the action a submission? -/
def Action.isSubmit {CS : Type} : Action CS → Bool
  | .submit _ => true
  | _ => false

/-- Is the action a source-chain query? -/
def Action.isQuery {CS : Type} : Action CS → Bool
  | .query _ _ => true
  | _ => false

/-- The chase loop's local mutable state: `start_height`,
`target_height` and `retry_number` from forcerelay.rs. -/
structure ChaseState where
  start_height : Nat
  target_height : Nat
  retry_number : Nat
  deriving DecidableEq, Repr

/-- The external `ChainHandle` capabilities consumed by
`handle_event_batch`.  `src_config`/`dst_config` are the two
`config()` results (`none` embeds `Err`, which the code `unwrap`s);
`build_client_state h` is `src_chain.build_client_state` at height `h`
(`none` embeds failure); `send_direct` is the Phase-1
`dst_chain.send_messages_and_wait_commit`; `query iter offset limit`
is `src_chain.query_clients` at loop iteration `iter` (`none` embeds
failure); `send_chase iter records` is the chase-loop submission at
iteration `iter`. -/
structure RelayEnv (CS : Type) where
  src_config : Option ChainConfig
  dst_config : Option ChainConfig
  build_client_state : Nat → Option CS
  send_direct : List CS → SubmitOutcome
  query : Nat → Nat → Nat → Option (List CS)
  send_chase : Nat → List CS → SubmitOutcome

/-- Result of one chase-loop iteration body. -/
inductive StepResult
  | next (st : ChaseState)
  | queryFailed (st : ChaseState)
  | panicked (st : ChaseState)
  | retryExceeded (st : ChaseState)
  deriving DecidableEq, Repr

/-- Terminal outcome of `handle_event_batch`.  `panicked` is the
`config().unwrap()` panic; `chaseDone st` is normal loop exit
(`start_height >= target_height`); `chasePanicked` is the `u64`
underflow in `start_height + clients_len - 1`; `chaseOutOfFuel` is the
fuel bound of the embedding running out (never reached in the runs the
theorems describe). -/
inductive RelayOutcome
  | panicked
  | configMismatch
  | emptyBatch
  | directSuccess (start_slot end_slot : Nat)
  | unexpectedError
  | chaseDone (st : ChaseState)
  | chaseQueryFailed (st : ChaseState)
  | chasePanicked (st : ChaseState)
  | chaseRetryExceeded (st : ChaseState)
  | chaseOutOfFuel (st : ChaseState)
  deriving DecidableEq, Repr

/-- One iteration of the chase loop body (forcerelay.rs lines 107-173),
entered with `start_height < target_height`:
compute `limit = min(MAX_HEADERS_IN_BATCH, target_height -
start_height + 1)`; query the source chain (failure returns from the
whole function); `end_height = start_height + clients_len - 1`
(underflow when both are zero is surfaced as `panicked`); submit the
fetched records; on success reset `retry_number` and set
`start_height = end_height + 1`; on failure increment `retry_number`
and sleep 12s only when the failure has the gap shape; finally return
if `retry_number >= MAX_RETRY_NUMBER`. -/
def chaseStep {CS : Type} (env : RelayEnv CS) (iter : Nat) (st : ChaseState) :
    StepResult × List (Action CS) :=
  let limit := min MAX_HEADERS_IN_BATCH (st.target_height - st.start_height + 1)
  match env.query iter st.start_height limit with
  | none => (.queryFailed st, [.query st.start_height limit])
  | some client_states =>
    let clients_len := client_states.length
    if st.start_height + clients_len = 0 then
      (.panicked st, [.query st.start_height limit])
    else
      let end_height := st.start_height + clients_len - 1
      let outcome := env.send_chase iter client_states
      let st' :=
        match outcome with
        | .ok => { st with retry_number := 0, start_height := end_height + 1 }
        | _ => { st with retry_number := st.retry_number + 1 }
      let acts : List (Action CS) :=
        [.query st.start_height limit, .submit client_states] ++
          (if outcome.isGapErr then [.sleep MAX_RETRY_SLEEP_INTERVAL] else [])
      if st'.retry_number ≥ MAX_RETRY_NUMBER then (.retryExceeded st', acts)
      else (.next st', acts)

/-- The chase loop (`while start_height < target_height`), indexed by
fuel (an upper bound on iterations, supplied large enough by the
theorems) and by the iteration counter threaded to the oracles. -/
def chaseLoop {CS : Type} (env : RelayEnv CS) (fuel iter : Nat) (st : ChaseState) :
    RelayOutcome × List (Action CS) :=
  if st.start_height < st.target_height then
    match fuel with
    | 0 => (.chaseOutOfFuel st, [])
    | fuel' + 1 =>
      match chaseStep env iter st with
      | (.next st', acts) =>
        let rest := chaseLoop env fuel' (iter + 1) st'
        (rest.1, acts ++ rest.2)
      | (.queryFailed st', acts) => (.chaseQueryFailed st', acts)
      | (.panicked st', acts) => (.chasePanicked st', acts)
      | (.retryExceeded st', acts) => (.chaseRetryExceeded st', acts)
  else (.chaseDone st, [])

/-- The Phase-1 `filter_map` over the batch events (forcerelay.rs lines
42-67): keep the `NewBlock` events, record the first one's height in
`start_slot` (only while `start_slot == 0`), build a client state at
each height, and drop (with a log) the ones whose construction fails.
Returns the final `start_slot` and the assembled message list. -/
def assemble {CS : Type} (build : Nat → Option CS) :
    List IbcEventKind → Nat → Nat × List CS
  | [], start_slot => (start_slot, [])
  | .NewBlock h :: rest, start_slot =>
    let start_slot' := if start_slot = 0 then h else start_slot
    match build h with
    | some client_state =>
      let tail := assemble build rest start_slot'
      (tail.1, client_state :: tail.2)
    | none => assemble build rest start_slot'
  | .OtherEvent :: rest, start_slot => assemble build rest start_slot

/-- The embedding of `handle_event_batch` (forcerelay.rs lines 17-175).  The Rust role
check `!matches!(src.config().unwrap(), Eth(_)) ||
!matches!(dst.config().unwrap(), Ckb(_))` short-circuits, so the
destination's config is only unwrapped when the source's config
unwraps to an Eth config; a failed `config()` surfaces as the
`panicked` outcome. -/
def handle_event_batch {CS : Type} (env : RelayEnv CS) (fuel : Nat)
    (event_batch : EventBatch) : RelayOutcome × List (Action CS) :=
  match env.src_config with
  | none => (.panicked, [])
  | some src_cfg =>
    if !src_cfg.isEth then (.configMismatch, [])
    else
      match env.dst_config with
      | none => (.panicked, [])
      | some dst_cfg =>
        if !dst_cfg.isCkb then (.configMismatch, [])
        else if event_batch.events.isEmpty then (.emptyBatch, [])
        else
          let end_slot := event_batch.height
          let assembled := assemble env.build_client_state event_batch.events 0
          let start_slot := assembled.1
          let any_client_states := assembled.2
          match env.send_direct any_client_states with
          | .ok => (.directSuccess start_slot end_slot, [.submit any_client_states])
          | .errGap h =>
            let target_height := end_slot
            let chased := chaseLoop env fuel 0
              { start_height := h, target_height := target_height, retry_number := 0 }
            (chased.1, .submit any_client_states :: chased.2)
          | .errLcOther => (.unexpectedError, [.submit any_client_states])
          | .errOther => (.unexpectedError, [.submit any_client_states])

/-! ## Concrete fixtures

Concrete environments and batches (over `CS := Nat`, a client-state
record abstracted to the height it was built from) used to witness and
refute the general statements. -/

/-- A concrete environment whose source queries return full pages of
records and whose chase submissions always fail with the gap shape;
its Phase-1 submission fails reporting tip height 50. -/
def gapEnv : RelayEnv Nat where
  src_config := some .Eth
  dst_config := some .Ckb
  build_client_state := fun h => some h
  send_direct := fun _ => .errGap 50
  query := fun _ offset limit => some (List.range' offset limit)
  send_chase := fun _ _ => .errGap 0

/-- Like `gapEnv`, but every chase submission succeeds: the
environment of the spec's concrete scenario (Phase-1 failure reports
tip 50; every query returns exactly the requested page). -/
def fullFetchEnv : RelayEnv Nat := { gapEnv with send_chase := fun _ _ => .ok }

/-- Like `gapEnv`, but every source query fails. -/
def qfailEnv : RelayEnv Nat := { gapEnv with query := fun _ _ _ => none }

/-- Like `gapEnv`, but queries succeed with zero records and
submissions succeed. -/
def emptyPageEnv : RelayEnv Nat :=
  { gapEnv with query := fun _ _ _ => some [], send_chase := fun _ _ => .ok }

/-- Like `gapEnv`, but the Phase-1 submission succeeds. -/
def okDirectEnv : RelayEnv Nat := { gapEnv with send_direct := fun _ => .ok }

/-- A source whose `config()` fails. -/
def srcErrEnv : RelayEnv Nat := { gapEnv with src_config := none }

/-- A source whose config is a Ckb config (not Eth) while the
destination's `config()` fails. -/
def badDstEnv : RelayEnv Nat :=
  { gapEnv with src_config := some .Ckb, dst_config := none }

/-- The spec's concrete scenario batch: batch height 100, "new block"
events at heights 40, 41, 42. -/
def c4Batch : EventBatch where
  events := [.NewBlock 40, .NewBlock 41, .NewBlock 42]
  height := 100

/-- A non-empty batch containing no "new block" events. -/
def noNbBatch : EventBatch where
  events := [.OtherEvent, .OtherEvent]
  height := 7

/-! ## Theorems -/

/-- Overwriting fold: walking a variant list and overwriting the
accumulator with each variant whose tag leads `client_id` returns the
last matching variant, or the initial accumulator when none matches. -/
theorem foldl_overwrite_eq_getLast (client_id : String) (l : List ClientType)
    (init : ClientType) :
    l.foldl (fun client_type value =>
        if client_id.startsWith value.as_str then value else client_type) init
      = ((l.filter (fun value => client_id.startsWith value.as_str)).getLast?).getD init := by
  induction l generalizing init with
  | nil => rfl
  | cons a l ih =>
    simp only [List.foldl_cons, List.filter_cons]
    cases hpa : client_id.startsWith a.as_str with
    | false => simpa [hpa] using ih init
    | true =>
      simp only [hpa, reduceIte]
      rw [ih a]
      cases hl : l.filter (fun value => client_id.startsWith value.as_str) with
      | nil => simp
      | cons b t => simp [List.getLast?]

/-- C3: for every `ClientType` variant the string tag round-trips
through `from_str`; the numeric round-trip through `TryFrom<u64>`
holds for every variant except `Mock`, whose Rust discriminant is
`255` while `try_from` only accepts `9999` for `Mock`. -/
theorem clientType_codec_roundtrip (v : ClientType) :
    ClientType.from_str (ClientType.as_str v) = .ok v
    ∧ (v ≠ ClientType.Mock →
        ClientType.try_from (ClientType.discriminant v) = .ok v)
    ∧ ClientType.try_from 9999 = .ok ClientType.Mock := by
  cases v
  case Mock => exact ⟨rfl, fun h => absurd rfl h, rfl⟩
  all_goals exact ⟨rfl, fun _ => rfl, rfl⟩

/-- C3 witness: the round-trips instantiated at the `Ckb` variant. -/
theorem clientType_codec_roundtrip_witness :
    ClientType.from_str (ClientType.as_str ClientType.Ckb) = .ok ClientType.Ckb
    ∧ ClientType.try_from (ClientType.discriminant ClientType.Ckb) = .ok ClientType.Ckb :=
  ⟨(clientType_codec_roundtrip ClientType.Ckb).1,
    (clientType_codec_roundtrip ClientType.Ckb).2.1 (by decide)⟩

/-- C3 counterexample: the claim's numeric round-trip fails on the
`Mock` sentinel — its Rust enum discriminant is `255`, but
`TryFrom<u64>` rejects `255` (it accepts `9999` for `Mock`). -/
theorem mock_discriminant_not_numeric_roundtrip :
    ClientType.discriminant ClientType.Mock = 255
    ∧ ClientType.try_from 255 = .error "255" := by
  exact ⟨rfl, rfl⟩

/-- C7: client-type inference from an identifier is total and equals
the spec's description — the last variant in declaration order whose
tag is a leading substring of the identifier wins, and the `Mock`
sentinel is returned when no variant's tag matches, in particular on
the empty identifier. -/
theorem fromClientId_lastMatch :
    (∀ client_id : String,
       ClientType.fromClientId client_id = lastMatchingVariant client_id)
    ∧ ClientType.fromClientId "" = ClientType.Mock := by
  constructor
  · intro client_id
    exact foldl_overwrite_eq_getLast client_id ClientType.iterOrder ClientType.Mock
  · rfl

/-- Unfolding the chase loop one iteration while
`start_height < target_height`. -/
theorem chaseLoop_succ {CS : Type} (env : RelayEnv CS) (fuel iter : Nat) (st : ChaseState)
    (hlt : st.start_height < st.target_height) :
    chaseLoop env (fuel + 1) iter st =
      match chaseStep env iter st with
      | (.next st', acts) =>
        ((chaseLoop env fuel (iter + 1) st').1,
          acts ++ (chaseLoop env fuel (iter + 1) st').2)
      | (.queryFailed st', acts) => (.chaseQueryFailed st', acts)
      | (.panicked st', acts) => (.chasePanicked st', acts)
      | (.retryExceeded st', acts) => (.chaseRetryExceeded st', acts) := by
  rw [chaseLoop.eq_def, if_pos hlt]

/-- The chase loop exits with `chaseDone` as soon as
`start_height < target_height` fails. -/
theorem chaseLoop_exit {CS : Type} (env : RelayEnv CS) (fuel iter : Nat) (st : ChaseState)
    (hge : ¬ st.start_height < st.target_height) :
    chaseLoop env fuel iter st = (.chaseDone st, []) := by
  rw [chaseLoop.eq_def, if_neg hge]

/-- A successful chase-loop iteration: the query returns `records`, the
height arithmetic does not underflow, and the submission succeeds; the
iteration resets `retry_number` and advances `start_height` by the
number of fetched records. -/
theorem chaseStep_ok {CS : Type} (env : RelayEnv CS) (iter : Nat) (st : ChaseState)
    (records : List CS)
    (hq : env.query iter st.start_height
      (min MAX_HEADERS_IN_BATCH (st.target_height - st.start_height + 1)) = some records)
    (hnz : st.start_height + records.length ≠ 0)
    (hok : env.send_chase iter records = .ok) :
    chaseStep env iter st =
      (.next { st with retry_number := 0,
                       start_height := st.start_height + records.length },
       [.query st.start_height
          (min MAX_HEADERS_IN_BATCH (st.target_height - st.start_height + 1)),
        .submit records]) := by
  have h1 : st.start_height + records.length - 1 + 1
      = st.start_height + records.length := Nat.succ_pred_eq_of_pos (Nat.pos_of_ne_zero hnz)
  simp [chaseStep, hq, hnz, hok, SubmitOutcome.isGapErr, h1, MAX_RETRY_NUMBER]

/-- A failed chase-loop iteration: `retry_number` is incremented,
`start_height` is unchanged, a 12-second sleep is appended exactly when
the failure has the gap shape, and the iteration ends the whole loop
exactly when the new `retry_number` reaches `MAX_RETRY_NUMBER`. -/
theorem chaseStep_fail {CS : Type} (env : RelayEnv CS) (iter : Nat) (st : ChaseState)
    (records : List CS)
    (hq : env.query iter st.start_height
      (min MAX_HEADERS_IN_BATCH (st.target_height - st.start_height + 1)) = some records)
    (hnz : st.start_height + records.length ≠ 0)
    (hfail : env.send_chase iter records ≠ .ok) :
    chaseStep env iter st =
      ((if st.retry_number + 1 ≥ MAX_RETRY_NUMBER then
          .retryExceeded { st with retry_number := st.retry_number + 1 }
        else
          .next { st with retry_number := st.retry_number + 1 }),
       [.query st.start_height
          (min MAX_HEADERS_IN_BATCH (st.target_height - st.start_height + 1)),
        .submit records] ++
         (if (env.send_chase iter records).isGapErr then
            [.sleep MAX_RETRY_SLEEP_INTERVAL] else [])) := by
  cases ho : env.send_chase iter records with
  | ok => exact absurd ho hfail
  | errGap h =>
    simp [chaseStep, hq, hnz, ho, SubmitOutcome.isGapErr]
    split_ifs <;> rfl
  | errLcOther =>
    simp [chaseStep, hq, hnz, ho, SubmitOutcome.isGapErr]
    split_ifs <;> rfl
  | errOther =>
    simp [chaseStep, hq, hnz, ho, SubmitOutcome.isGapErr]
    split_ifs <;> rfl

/-- A gap-shaped outcome is not success. -/
theorem SubmitOutcome.isGapErr_ne_ok {o : SubmitOutcome} (h : o.isGapErr = true) :
    o ≠ .ok := by
  cases o <;> simp_all [SubmitOutcome.isGapErr]

/-- Consecutive gap-shaped chase failures: as long as every query
succeeds and every chase submission fails with the gap shape, the loop
runs `n + 1` further iterations (where `retry_number + (n + 1) =
MAX_RETRY_NUMBER`), never moves `start_height`, sleeps 12 seconds once
per failure, and ends with `chaseRetryExceeded`. -/
theorem chaseLoop_gapRun {CS : Type} (env : RelayEnv CS)
    (hq : ∀ iter offset limit, ∃ rs, env.query iter offset limit = some rs)
    (hgap : ∀ iter rs, (env.send_chase iter rs).isGapErr = true) :
    ∀ (n : Nat) (st : ChaseState) (iter f : Nat),
      st.retry_number + (n + 1) = MAX_RETRY_NUMBER →
      0 < st.start_height → st.start_height < st.target_height →
      (chaseLoop env (f + (n + 1)) iter st).1 =
          .chaseRetryExceeded { st with retry_number := MAX_RETRY_NUMBER }
        ∧ (chaseLoop env (f + (n + 1)) iter st).2.filter Action.isSleep =
            List.replicate (n + 1) (.sleep MAX_RETRY_SLEEP_INTERVAL) := by
  intro n
  induction n with
  | zero =>
    intro st iter f hretry hpos hlt
    obtain ⟨rs, hrs⟩ := hq iter st.start_height
      (min MAX_HEADERS_IN_BATCH (st.target_height - st.start_height + 1))
    have hnz : st.start_height + rs.length ≠ 0 := by omega
    have hne : env.send_chase iter rs ≠ .ok := SubmitOutcome.isGapErr_ne_ok (hgap iter rs)
    have hstep := chaseStep_fail env iter st rs hrs hnz hne
    rw [if_pos (by omega)] at hstep
    have hr5 : st.retry_number + 1 = MAX_RETRY_NUMBER := by omega
    have : chaseLoop env (f + 1) iter st
        = (.chaseRetryExceeded { st with retry_number := st.retry_number + 1 },
           [.query st.start_height
              (min MAX_HEADERS_IN_BATCH (st.target_height - st.start_height + 1)),
            .submit rs] ++
             (if (env.send_chase iter rs).isGapErr then
                [.sleep MAX_RETRY_SLEEP_INTERVAL] else [])) := by
      rw [chaseLoop_succ env f iter st hlt, hstep]
    rw [this]
    constructor
    · simp [hr5]
    · simp [hgap iter rs, Action.isSleep]
  | succ n ih =>
    intro st iter f hretry hpos hlt
    obtain ⟨rs, hrs⟩ := hq iter st.start_height
      (min MAX_HEADERS_IN_BATCH (st.target_height - st.start_height + 1))
    have hnz : st.start_height + rs.length ≠ 0 := by omega
    have hne : env.send_chase iter rs ≠ .ok := SubmitOutcome.isGapErr_ne_ok (hgap iter rs)
    have hstep := chaseStep_fail env iter st rs hrs hnz hne
    rw [if_neg (by omega)] at hstep
    have hrec := ih { st with retry_number := st.retry_number + 1 } (iter + 1) f
      (by simpa using by omega) (by simpa using hpos) (by simpa using hlt)
    have hunf : chaseLoop env (f + (n + 1 + 1)) iter st
        = ((chaseLoop env (f + (n + 1)) (iter + 1)
              { st with retry_number := st.retry_number + 1 }).1,
           ([.query st.start_height
               (min MAX_HEADERS_IN_BATCH (st.target_height - st.start_height + 1)),
             .submit rs] ++
              (if (env.send_chase iter rs).isGapErr then
                 [.sleep MAX_RETRY_SLEEP_INTERVAL] else [])) ++
             (chaseLoop env (f + (n + 1)) (iter + 1)
               { st with retry_number := st.retry_number + 1 }).2) := by
      rw [show f + (n + 1 + 1) = (f + (n + 1)) + 1 by omega,
        chaseLoop_succ env (f + (n + 1)) iter st hlt, hstep]
    rw [hunf]
    constructor
    · exact hrec.1
    · simp only [List.filter_append, hrec.2, hgap iter rs]
      simp [Action.isSleep, List.replicate_succ]

/-- C5: every chase-loop submission failure increments `retry_number`
and leaves `start_height` in place, a 12-second sleep happens exactly
when the failure has the gap shape, and five consecutive gap-shaped
failures end the loop with `chaseRetryExceeded` after five sleeps,
`start_height` never having advanced. -/
theorem chase_failure_retry_and_backoff :
    (∀ (CS : Type) (env : RelayEnv CS) (iter : Nat) (st : ChaseState) (records : List CS),
      env.query iter st.start_height
          (min MAX_HEADERS_IN_BATCH (st.target_height - st.start_height + 1))
        = some records →
      st.start_height + records.length ≠ 0 →
      env.send_chase iter records ≠ .ok →
      ((chaseStep env iter st).1
          = .retryExceeded { st with retry_number := st.retry_number + 1 }
        ∨ (chaseStep env iter st).1
          = .next { st with retry_number := st.retry_number + 1 })
      ∧ (chaseStep env iter st).2.filter Action.isSleep
          = (if (env.send_chase iter records).isGapErr then
              [.sleep MAX_RETRY_SLEEP_INTERVAL] else []))
    ∧ (∀ (CS : Type) (env : RelayEnv CS) (fuel iter : Nat) (st : ChaseState),
      (∀ it offset limit, ∃ rs, env.query it offset limit = some rs) →
      (∀ it rs, (env.send_chase it rs).isGapErr = true) →
      st.retry_number = 0 → 0 < st.start_height →
      st.start_height < st.target_height → 5 ≤ fuel →
      (chaseLoop env fuel iter st).1
          = .chaseRetryExceeded { st with retry_number := 5 }
        ∧ (chaseLoop env fuel iter st).2.filter Action.isSleep
          = List.replicate 5 (.sleep 12)) := by
  constructor
  · intro CS env iter st records hq hnz hfail
    rw [chaseStep_fail env iter st records hq hnz hfail]
    constructor
    · by_cases h : st.retry_number + 1 ≥ MAX_RETRY_NUMBER
      · exact Or.inl (by simp [h])
      · exact Or.inr (by simp [h])
    · cases hg : (env.send_chase iter records).isGapErr <;>
        simp [hg, Action.isSleep]
  · intro CS env fuel iter st hq hgap hr0 hpos hlt hfuel
    have hM : MAX_RETRY_NUMBER = 5 := rfl
    obtain ⟨f, rfl⟩ : ∃ f, fuel = f + 5 := ⟨fuel - 5, by omega⟩
    have h := chaseLoop_gapRun env hq hgap 4 st iter f (by omega) hpos hlt
    simp only [MAX_RETRY_NUMBER, MAX_RETRY_SLEEP_INTERVAL] at h
    norm_num at h
    exact h

/-- C5 witness: from `start_height = 50`, `target_height = 100` with
every chase submission failing with the gap shape, the loop ends with
`chaseRetryExceeded` at retry 5, `start_height` still 50, after five
12-second sleeps. -/
theorem chase_failure_retry_and_backoff_witness :
    (chaseLoop gapEnv 20 0 ⟨50, 100, 0⟩).1
        = .chaseRetryExceeded ⟨50, 100, 5⟩
      ∧ (chaseLoop gapEnv 20 0 ⟨50, 100, 0⟩).2.filter Action.isSleep
        = List.replicate 5 (.sleep 12) :=
  chase_failure_retry_and_backoff.2 Nat gapEnv 20 0 ⟨50, 100, 0⟩
    (fun _ offset limit => ⟨List.range' offset limit, rfl⟩)
    (fun _ _ => rfl) rfl (by decide) (by decide) (by decide)

/-- C6: when the source-chain query of a chase iteration fails, the
loop aborts at once with `chaseQueryFailed`, the state untouched (no
retry increment), and performs no submission and no sleep. -/
theorem chase_query_failure_aborts {CS : Type} (env : RelayEnv CS)
    (fuel iter : Nat) (st : ChaseState)
    (hlt : st.start_height < st.target_height)
    (hq : env.query iter st.start_height
      (min MAX_HEADERS_IN_BATCH (st.target_height - st.start_height + 1)) = none) :
    chaseLoop env (fuel + 1) iter st
        = (.chaseQueryFailed st,
           [.query st.start_height
             (min MAX_HEADERS_IN_BATCH (st.target_height - st.start_height + 1))])
      ∧ (chaseLoop env (fuel + 1) iter st).2.countP Action.isSubmit = 0
      ∧ (chaseLoop env (fuel + 1) iter st).2.countP Action.isSleep = 0 := by
  have hstep : chaseStep env iter st
      = (.queryFailed st,
         [.query st.start_height
           (min MAX_HEADERS_IN_BATCH (st.target_height - st.start_height + 1))]) := by
    simp [chaseStep, hq]
  have hloop := chaseLoop_succ env fuel iter st hlt
  rw [hstep] at hloop
  exact ⟨hloop, by rw [hloop]; simp [Action.isSubmit, Action.isSleep]⟩

/-- C6 witness: a failing query at `start_height = 50`,
`target_height = 100` aborts the chase immediately. -/
theorem chase_query_failure_aborts_witness :
    chaseLoop qfailEnv 1 0 ⟨50, 100, 0⟩
        = (.chaseQueryFailed ⟨50, 100, 0⟩, [.query 50 32])
      ∧ (chaseLoop qfailEnv 1 0 ⟨50, 100, 0⟩).2.countP Action.isSubmit = 0
      ∧ (chaseLoop qfailEnv 1 0 ⟨50, 100, 0⟩).2.countP Action.isSleep = 0 :=
  chase_query_failure_aborts qfailEnv 0 0 ⟨50, 100, 0⟩ (by decide) rfl

/-- C8: a chase-loop query that succeeds with zero records makes
`end_height = start_height + 0 - 1` underflow the `u64` height when
`start_height = 0` (surfaced as the `panicked` step result); when
`start_height > 0`, the empty record set is still submitted, and a
successful submission resets `retry_number` and leaves `start_height`
where it was, so the iteration makes no progress. -/
theorem empty_page_underflow_or_stall :
    (∀ (CS : Type) (env : RelayEnv CS) (iter : Nat) (st : ChaseState),
      st.start_height = 0 →
      env.query iter st.start_height
          (min MAX_HEADERS_IN_BATCH (st.target_height - st.start_height + 1))
        = some [] →
      chaseStep env iter st
        = (.panicked st,
           [.query st.start_height
             (min MAX_HEADERS_IN_BATCH (st.target_height - st.start_height + 1))]))
    ∧ (∀ (CS : Type) (env : RelayEnv CS) (iter : Nat) (st : ChaseState),
      0 < st.start_height →
      env.query iter st.start_height
          (min MAX_HEADERS_IN_BATCH (st.target_height - st.start_height + 1))
        = some [] →
      env.send_chase iter [] = .ok →
      chaseStep env iter st
        = (.next { st with retry_number := 0 },
           [.query st.start_height
              (min MAX_HEADERS_IN_BATCH (st.target_height - st.start_height + 1)),
            .submit ([] : List CS)])) := by
  constructor
  · intro CS env iter st h0 hq
    simp only [chaseStep]
    rw [hq]
    simp [h0]
  · intro CS env iter st hpos hq hok
    have := chaseStep_ok env iter st [] hq (by omega) hok
    simpa using this

/-- C8 witness: at `start_height = 0` the empty page hits the
underflow; at `start_height = 5` the empty set is submitted, retry is
reset, and `start_height` stays 5. -/
theorem empty_page_underflow_or_stall_witness :
    chaseStep emptyPageEnv 0 ⟨0, 10, 0⟩ = (.panicked ⟨0, 10, 0⟩, [.query 0 11])
      ∧ chaseStep emptyPageEnv 0 ⟨5, 10, 3⟩
        = (.next ⟨5, 10, 0⟩, [.query 5 6, .submit []]) :=
  ⟨empty_page_underflow_or_stall.1 Nat emptyPageEnv 0 ⟨0, 10, 0⟩ rfl rfl,
   empty_page_underflow_or_stall.2 Nat emptyPageEnv 0 ⟨5, 10, 3⟩ (by decide) rfl rfl⟩

/-- C1 (amended): in a chase run where every query returns exactly the
requested limit of records and every submission succeeds, each
iteration strictly increases `start_height` (by
`min(32, target_height - start_height + 1)` records), and from any
seed with `start_height ≤ target_height` the loop terminates normally
with `start_height` equal to `target_height` or overshooting it by
exactly one — not always equal to it. -/
theorem chase_full_fetch_progress_termination {CS : Type} (env : RelayEnv CS)
    (hq : ∀ iter offset limit, ∃ rs,
      env.query iter offset limit = some rs ∧ rs.length = limit)
    (hok : ∀ iter rs, env.send_chase iter rs = .ok) :
    (∀ (iter : Nat) (st : ChaseState), st.start_height < st.target_height →
      ∃ acts, chaseStep env iter st
          = (.next ⟨st.start_height
                + min MAX_HEADERS_IN_BATCH (st.target_height - st.start_height + 1),
              st.target_height, 0⟩,
             acts)
        ∧ st.start_height < st.start_height
            + min MAX_HEADERS_IN_BATCH (st.target_height - st.start_height + 1))
    ∧ (∀ (fuel iter : Nat) (st : ChaseState),
      st.target_height - st.start_height ≤ fuel →
      st.start_height ≤ st.target_height →
      ∃ final, (chaseLoop env fuel iter st).1 = .chaseDone final
        ∧ final.target_height = st.target_height
        ∧ (final.start_height = st.target_height
            ∨ final.start_height = st.target_height + 1)) := by
  have h32 : MAX_HEADERS_IN_BATCH = 32 := rfl
  have hstep : ∀ (iter : Nat) (st : ChaseState),
      st.start_height < st.target_height →
      chaseStep env iter st
        = (.next ⟨st.start_height
              + min MAX_HEADERS_IN_BATCH (st.target_height - st.start_height + 1),
            st.target_height, 0⟩,
           [.query st.start_height
              (min MAX_HEADERS_IN_BATCH (st.target_height - st.start_height + 1)),
            .submit (Classical.choose (hq iter st.start_height
              (min MAX_HEADERS_IN_BATCH (st.target_height - st.start_height + 1))))]) := by
    intro iter st hlt
    obtain ⟨hrs, hlen⟩ := Classical.choose_spec (hq iter st.start_height
      (min MAX_HEADERS_IN_BATCH (st.target_height - st.start_height + 1)))
    have hnz : st.start_height
        + (Classical.choose (hq iter st.start_height
            (min MAX_HEADERS_IN_BATCH (st.target_height - st.start_height + 1)))).length
        ≠ 0 := by omega
    have := chaseStep_ok env iter st _ hrs hnz (hok iter _)
    rw [hlen] at this
    exact this
  constructor
  · intro iter st hlt
    refine ⟨_, hstep iter st hlt, ?_⟩
    omega
  · intro fuel
    induction fuel with
    | zero =>
      intro iter st hfuel hle
      have hge : ¬ st.start_height < st.target_height := by omega
      refine ⟨st, ?_, rfl, Or.inl (by omega)⟩
      rw [chaseLoop_exit env 0 iter st hge]
    | succ fuel ih =>
      intro iter st hfuel hle
      by_cases hlt : st.start_height < st.target_height
      · have hloop := chaseLoop_succ env fuel iter st hlt
        rw [hstep iter st hlt] at hloop
        have hfst : (chaseLoop env (fuel + 1) iter st).1
            = (chaseLoop env fuel (iter + 1)
                ⟨st.start_height
                    + min MAX_HEADERS_IN_BATCH
                        (st.target_height - st.start_height + 1),
                  st.target_height, 0⟩).1 := by
          rw [hloop]
        by_cases hle' : st.start_height
            + min MAX_HEADERS_IN_BATCH (st.target_height - st.start_height + 1)
            ≤ st.target_height
        · obtain ⟨final, hfin, htgt, hdisj⟩ := ih (iter + 1)
            ⟨st.start_height
                + min MAX_HEADERS_IN_BATCH (st.target_height - st.start_height + 1),
              st.target_height, 0⟩
            (show st.target_height - (st.start_height
              + min MAX_HEADERS_IN_BATCH (st.target_height - st.start_height + 1))
              ≤ fuel by omega)
            (show st.start_height
              + min MAX_HEADERS_IN_BATCH (st.target_height - st.start_height + 1)
              ≤ st.target_height from hle')
          exact ⟨final, hfst.trans hfin, htgt, hdisj⟩
        · have hexact : st.start_height
              + min MAX_HEADERS_IN_BATCH (st.target_height - st.start_height + 1)
              = st.target_height + 1 := by omega
          have hdone := chaseLoop_exit env fuel (iter + 1)
            ⟨st.start_height
                + min MAX_HEADERS_IN_BATCH (st.target_height - st.start_height + 1),
              st.target_height, 0⟩
            (show ¬ st.start_height
              + min MAX_HEADERS_IN_BATCH (st.target_height - st.start_height + 1)
              < st.target_height by omega)
          refine ⟨⟨st.start_height
              + min MAX_HEADERS_IN_BATCH (st.target_height - st.start_height + 1),
            st.target_height, 0⟩, ?_, rfl, Or.inr hexact⟩
          rw [hfst, hdone]
      · refine ⟨st, ?_, rfl, Or.inl (by omega)⟩
        rw [chaseLoop_exit env (fuel + 1) iter st hlt]

/-- C1 witness: the progress-and-termination statement instantiated on
the full-page environment from seed `start_height = 50`,
`target_height = 100`. -/
theorem chase_full_fetch_progress_termination_witness :
    ∃ final, (chaseLoop fullFetchEnv 60 0 ⟨50, 100, 0⟩).1 = .chaseDone final
      ∧ final.target_height = 100
      ∧ (final.start_height = 100 ∨ final.start_height = 101) :=
  (chase_full_fetch_progress_termination fullFetchEnv
    (fun _ offset limit => ⟨List.range' offset limit, rfl, by simp⟩)
    (fun _ _ => rfl)).2 60 0 ⟨50, 100, 0⟩ (by decide) (by decide)

/-- C1 counterexample: on the full-page environment with every
submission succeeding, the run seeded at 50 with target 100 terminates
with `start_height = 101`, not `target_height = 100` as claimed. -/
theorem chase_full_fetch_overshoot :
    (chaseLoop fullFetchEnv 60 0 ⟨50, 100, 0⟩).1 = .chaseDone ⟨101, 100, 0⟩
      ∧ (101 : Nat) ≠ 100 :=
  ⟨rfl, by decide⟩

/-- A non-empty event list is not `isEmpty`. -/
theorem events_isEmpty_false {l : List IbcEventKind} (hne : l ≠ []) :
    l.isEmpty = false := by
  cases l with
  | nil => exact absurd rfl hne
  | cons a t => rfl

/-- C2: after a Phase-1 submission failure the chase loop is entered
if and only if the failure is a light-client-verification error with
source "missing last block id" carrying a height `H`, in which case
the loop is seeded with `start_height := H` and
`target_height := end_slot` (the batch's height); on any other failure
shape the whole operation ends at once with `unexpectedError` and no
further submission or query; on Phase-1 success no chase happens. -/
theorem direct_failure_dispatch {CS : Type} (env : RelayEnv CS) (fuel : Nat)
    (batch : EventBatch)
    (hsrc : env.src_config = some .Eth)
    (hdst : env.dst_config = some .Ckb)
    (hne : batch.events ≠ []) :
    (∀ h, env.send_direct (assemble env.build_client_state batch.events 0).2
        = .errGap h →
      handle_event_batch env fuel batch
        = ((chaseLoop env fuel 0 ⟨h, batch.height, 0⟩).1,
           .submit (assemble env.build_client_state batch.events 0).2
             :: (chaseLoop env fuel 0 ⟨h, batch.height, 0⟩).2))
    ∧ (env.send_direct (assemble env.build_client_state batch.events 0).2
        = .errLcOther →
      handle_event_batch env fuel batch
        = (.unexpectedError,
           [.submit (assemble env.build_client_state batch.events 0).2]))
    ∧ (env.send_direct (assemble env.build_client_state batch.events 0).2
        = .errOther →
      handle_event_batch env fuel batch
        = (.unexpectedError,
           [.submit (assemble env.build_client_state batch.events 0).2]))
    ∧ (env.send_direct (assemble env.build_client_state batch.events 0).2
        = .ok →
      handle_event_batch env fuel batch
        = (.directSuccess (assemble env.build_client_state batch.events 0).1
             batch.height,
           [.submit (assemble env.build_client_state batch.events 0).2])) := by
  have hempty := events_isEmpty_false hne
  refine ⟨?_, ?_, ?_, ?_⟩
  · intro h hgap
    simp [handle_event_batch, hsrc, hdst, ChainConfig.isEth, ChainConfig.isCkb,
      hempty, hgap]
  · intro hlc
    simp [handle_event_batch, hsrc, hdst, ChainConfig.isEth, ChainConfig.isCkb,
      hempty, hlc]
  · intro hoth
    simp [handle_event_batch, hsrc, hdst, ChainConfig.isEth, ChainConfig.isCkb,
      hempty, hoth]
  · intro hok
    simp [handle_event_batch, hsrc, hdst, ChainConfig.isEth, ChainConfig.isCkb,
      hempty, hok]

/-- C2 witness: on the concrete scenario environment, whose direct
submission fails with the gap shape at height 50, the chase loop is
entered seeded at `start_height = 50`, `target_height = 100`. -/
theorem direct_failure_dispatch_witness :
    handle_event_batch fullFetchEnv 10 c4Batch
      = ((chaseLoop fullFetchEnv 10 0 ⟨50, 100, 0⟩).1,
         .submit (assemble fullFetchEnv.build_client_state c4Batch.events 0).2
           :: (chaseLoop fullFetchEnv 10 0 ⟨50, 100, 0⟩).2) :=
  (direct_failure_dispatch fullFetchEnv 10 c4Batch rfl rfl
    (by decide)).1 50 rfl

/-- Assembling a batch with no "new block" events yields no client
states and leaves `start_slot` untouched. -/
theorem assemble_no_newblock {CS : Type} (build : Nat → Option CS) :
    ∀ (l : List IbcEventKind), (∀ e ∈ l, e = .OtherEvent) →
    ∀ s, assemble build l s = (s, []) := by
  intro l
  induction l with
  | nil => intro _ s; rfl
  | cons a t ih =>
    intro hall s
    have ha : a = .OtherEvent := hall a (List.mem_cons_self a t)
    subst ha
    exact ih (fun e he => hall e (List.mem_cons_of_mem _ he)) s

/-- C9: a non-empty batch with no "new block" events is not treated
like the empty-batch early return: `start_slot` stays 0, the assembled
message list is empty, and one direct submission of that empty list is
still performed (when it succeeds, it is the only action of the whole
run). -/
theorem no_newblock_batch_submits_empty {CS : Type} (env : RelayEnv CS)
    (fuel : Nat) (batch : EventBatch)
    (hsrc : env.src_config = some .Eth)
    (hdst : env.dst_config = some .Ckb)
    (hne : batch.events ≠ [])
    (hnb : ∀ e ∈ batch.events, e = .OtherEvent) :
    assemble env.build_client_state batch.events 0 = (0, ([] : List CS))
    ∧ (handle_event_batch env fuel batch).2.head? = some (.submit ([] : List CS))
    ∧ (env.send_direct [] = .ok →
        handle_event_batch env fuel batch
          = (.directSuccess 0 batch.height, [.submit ([] : List CS)])) := by
  have hasm := assemble_no_newblock env.build_client_state batch.events hnb 0
  have hempty := events_isEmpty_false hne
  refine ⟨hasm, ?_, ?_⟩
  · cases hsd : env.send_direct ([] : List CS) with
    | ok =>
      simp [handle_event_batch, hsrc, hdst, ChainConfig.isEth, ChainConfig.isCkb,
        hempty, hasm, hsd]
    | errGap h =>
      simp [handle_event_batch, hsrc, hdst, ChainConfig.isEth, ChainConfig.isCkb,
        hempty, hasm, hsd]
    | errLcOther =>
      simp [handle_event_batch, hsrc, hdst, ChainConfig.isEth, ChainConfig.isCkb,
        hempty, hasm, hsd]
    | errOther =>
      simp [handle_event_batch, hsrc, hdst, ChainConfig.isEth, ChainConfig.isCkb,
        hempty, hasm, hsd]
  · intro hok
    simp [handle_event_batch, hsrc, hdst, ChainConfig.isEth, ChainConfig.isCkb,
      hempty, hasm, hok]

/-- C9 witness: the no-"new block" batch on an environment whose
direct submission succeeds: `start_slot = 0`, one submission of the
empty message list, and nothing else. -/
theorem no_newblock_batch_submits_empty_witness :
    assemble okDirectEnv.build_client_state noNbBatch.events 0 = (0, ([] : List Nat))
    ∧ (handle_event_batch okDirectEnv 1 noNbBatch).2.head?
        = some (.submit ([] : List Nat))
    ∧ handle_event_batch okDirectEnv 1 noNbBatch
        = (.directSuccess 0 7, [.submit ([] : List Nat)]) := by
  have h := no_newblock_batch_submits_empty okDirectEnv 1 noNbBatch rfl rfl
    (by decide) (by decide)
  exact ⟨h.1, h.2.1, h.2.2 rfl⟩

/-- C10 (amended): the source's `config()` result is always unwrapped,
so a failed source config panics; but the Rust `||` short-circuits, so
the destination's `config()` is unwrapped only when the source config
is an Eth config — with a non-Eth source config the run takes the
non-panicking mismatch abort even if the destination's config query
fails. -/
theorem config_unwrap_short_circuit {CS : Type} (env : RelayEnv CS) (fuel : Nat)
    (batch : EventBatch) :
    (env.src_config = none →
      handle_event_batch env fuel batch = (.panicked, []))
    ∧ (∀ sc, env.src_config = some sc → sc.isEth = false →
        handle_event_batch env fuel batch = (.configMismatch, []))
    ∧ (env.src_config = some .Eth → env.dst_config = none →
        handle_event_batch env fuel batch = (.panicked, []))
    ∧ (∀ dc, env.src_config = some .Eth → env.dst_config = some dc →
        dc.isCkb = false →
        handle_event_batch env fuel batch = (.configMismatch, [])) := by
  refine ⟨?_, ?_, ?_, ?_⟩
  · intro hnone
    simp [handle_event_batch, hnone]
  · intro sc hsome heth
    simp [handle_event_batch, hsome, heth]
  · intro hsrc hdst
    simp [handle_event_batch, hsrc, hdst, ChainConfig.isEth]
  · intro dc hsrc hdst hckb
    simp [handle_event_batch, hsrc, hdst, ChainConfig.isEth, hckb]

/-- C10 witness: a failed source config panics; a non-Eth source
config with a failed destination config takes the mismatch abort. -/
theorem config_unwrap_short_circuit_witness :
    handle_event_batch srcErrEnv 1 c4Batch = (.panicked, [])
    ∧ handle_event_batch badDstEnv 1 c4Batch = (.configMismatch, []) :=
  ⟨(config_unwrap_short_circuit srcErrEnv 1 c4Batch).1 rfl,
   (config_unwrap_short_circuit badDstEnv 1 c4Batch).2.1 .Ckb rfl rfl⟩

/-- C10 counterexample: the claim says a failed config query on either
chain handle panics, but with a source config that is Ckb (not Eth)
and a destination whose config query fails, the run returns the
non-panicking mismatch abort — the destination config is never
unwrapped. -/
theorem config_err_no_panic :
    handle_event_batch badDstEnv 1 c4Batch = (.configMismatch, [])
    ∧ RelayOutcome.configMismatch ≠ RelayOutcome.panicked :=
  ⟨rfl, by decide⟩

/-- C4 (amended): on the concrete scenario (batch height 100, "new
block" events at 40, 41, 42, direct submission failing with reported
tip 50, full pages, successful chase submissions) the run sets
`start_slot = 40`-derived messages `[40, 41, 42]`, seeds the chase at
50 with target 100, queries offset 50 with limit 32 (advancing
`start_height` to 82), then queries offset 82 with limit 19 — not
18 — (advancing `start_height` to 101, not 100), and the loop ends in
overall success with no retries consumed. -/
theorem scenario_run_exact :
    handle_event_batch fullFetchEnv 10 c4Batch
      = (.chaseDone ⟨101, 100, 0⟩,
         [.submit [40, 41, 42], .query 50 32, .submit (List.range' 50 32),
          .query 82 19, .submit (List.range' 82 19)]) := by
  rfl

/-- C4 counterexample: the claim's second chase iteration (query at
offset 82 with limit 18, ending at `start_height = 100`) does not
match the run — the queries performed are offset 50 limit 32 and
offset 82 limit 19, and the final state is 101, not 100. -/
theorem scenario_second_page_not_as_claimed :
    (handle_event_batch fullFetchEnv 10 c4Batch).2.filter Action.isQuery
        ≠ [.query 50 32, .query 82 18]
    ∧ (handle_event_batch fullFetchEnv 10 c4Batch).1
        ≠ .chaseDone ⟨100, 100, 0⟩ :=
  ⟨by decide, by decide⟩

end Forcerelay
